import Mathlib

/-!
Verification of the package aggregator `src/yews/datasets/__init__.py`.

The file under verification is a Python package initializer: thirteen
`from .module import name` statements, one `from .utils import *`
statement, and an `__all__` allow-list.  We give a shallow embedding of
the relevant fragment of Python module semantics: a namespace is an
association list from names to objects, the module body is a list of
statements interpreted sequentially, a failed import aborts
initialization (the Except error), and a wildcard import driven by
`__all__` binds names in order and stops with an error at the first
name that is not an attribute (CPython, ceval import_all_from; the
bindings already made persist in the importing scope).

The sibling modules `base`, `packaged_datasets` and `utils` are not part
of the provided sources; they are modelled from the spec (section 6).
-/

/-- A Python runtime object.  Each class or function exported by the
collaborator modules is a distinct value, so that equality of `PyObj`
values models identity of references.  `utilsObj` tags the otherwise
unspecified helper objects of the `utils` module. -/
inductive PyObj where
  | baseDatasetCls
  | datasetCls
  | dirDatasetCls
  | fileDatasetCls
  | isDatasetFn
  | pathDatasetCls
  | marianaCls
  | packagedDatasetCls
  | scsnCls
  | wenchuanCls
  | scsnPolarityCls
  | taiwanFocalMechanismCls
  | taiwan20092010Cls
  | utilsObj (n : String)
deriving DecidableEq, Repr

/-- A Python namespace (a module dict): names bound to objects.  A new
binding is consed to the front, so `List.lookup` sees the most recent
binding first, matching Python dict assignment. -/
abbrev PyDict := List (String × PyObj)

/-- A Python module: its attribute dict and its optional `__all__`. -/
structure PyModule where
  attrs : PyDict
  allNames : Option (List String)
deriving DecidableEq, Repr

/-- The names a `from m import *` statement takes from module `m`:
its `__all__` when defined, otherwise all its attribute names (none of
the modules here has underscore-private attributes, so the CPython
underscore filter is vacuous). -/
def starNames (md : PyModule) : List String :=
  md.allNames.getD (md.attrs.map Prod.fst)

/-- One statement of the module body of `__init__.py`:
`from .m import s` or `from .m import *`. -/
inductive Stmt where
  | importFrom (m s : String)
  | importStar (m : String)
deriving DecidableEq, Repr

/-- The interpreter environment: the loadable sibling modules.  A module
that failed to load (missing dependency, syntax error) is simply absent
from the environment. -/
abbrev ModuleEnv := List (String × PyModule)

/-- Resolution of `from .m import s` against the environment: `none`
when the module is absent or the module has no such attribute. -/
def resolveAttr (env : ModuleEnv) (m s : String) : Option PyObj :=
  (env.lookup m).bind fun md => md.attrs.lookup s

/-- Binding phase of `from .m import *` executed inside a module body:
each star-exported name is looked up in the source module and bound;
a name that does not resolve raises (error). -/
def bindStarFrom (md : PyModule) : List String → PyDict → Except String PyDict
  | [], ns => Except.ok ns
  | n :: rest, ns =>
    match md.attrs.lookup n with
    | some v => bindStarFrom md rest ((n, v) :: ns)
    | none => Except.error ("attribute " ++ n ++ " not found")

/-- Sequential execution of a module body.  Any statement that fails
aborts the whole initialization with an error and no namespace is
produced: the importer sees an import-time failure and no partial
namespace. -/
def runStmts (env : ModuleEnv) : List Stmt → PyDict → Except String PyDict
  | [], ns => Except.ok ns
  | Stmt.importFrom m s :: rest, ns =>
    match resolveAttr env m s with
    | some v => runStmts env rest ((s, v) :: ns)
    | none => Except.error ("cannot " ++ "import name " ++ s ++ " from " ++ m)
  | Stmt.importStar m :: rest, ns =>
    match env.lookup m with
    | none => Except.error ("no module named " ++ m)
    | some md =>
      match bindStarFrom md (starNames md) ns with
      | Except.error e => Except.error e
      | Except.ok ns2 => runStmts env rest ns2

/-- Whether a single statement of a module body resolves against an
environment (the module is loadable and, for a named import, the symbol
exists in it). -/
def stmtResolves (env : ModuleEnv) : Stmt → Bool
  | Stmt.importFrom m s => (resolveAttr env m s).isSome
  | Stmt.importStar m => (env.lookup m).isSome

/-- Attribute access on an initialized namespace, as in Python getattr
on the package. -/
def getattr (ns : PyDict) (n : String) : Option PyObj :=
  ns.lookup n

/-- Consumer-level wildcard import of a module whose `__all__` is the
given list (CPython ceval import_all_from): names are bound in list
order; at the first name that is not an attribute the loop stops, the
bindings already made persist in the importing scope, and the offending
name is reported as an error (AttributeError). -/
def wildcardImport (ns : PyDict) : List String → List (String × PyObj) × Option String
  | [] => ([], none)
  | n :: rest =>
    match ns.lookup n with
    | some v =>
      let r := wildcardImport ns rest
      ((n, v) :: r.1, r.2)
    | none => ([], some n)

/-- Modelled from the spec: the `base` module is not in the provided
sources; per section 6 it exports `BaseDataset`, `Dataset`,
`DirDataset`, `FileDataset`, `is_dataset` and `PathDataset`. -/
def base_module : PyModule :=
  ⟨[("BaseDataset", PyObj.baseDatasetCls),
    ("Dataset", PyObj.datasetCls),
    ("DirDataset", PyObj.dirDatasetCls),
    ("FileDataset", PyObj.fileDatasetCls),
    ("is_dataset", PyObj.isDatasetFn),
    ("PathDataset", PyObj.pathDatasetCls)], none⟩

/-- Modelled from the spec: the `packaged_datasets` module is not in the
provided sources; per section 6 it exports `Mariana`, `PackagedDataset`,
`SCSN`, `Wenchuan`, `SCSN_polarity`, `Taiwan_focal_mechanism` and
`Taiwan20092010`. -/
def packaged_datasets_module : PyModule :=
  ⟨[("Mariana", PyObj.marianaCls),
    ("PackagedDataset", PyObj.packagedDatasetCls),
    ("SCSN", PyObj.scsnCls),
    ("Wenchuan", PyObj.wenchuanCls),
    ("SCSN_polarity", PyObj.scsnPolarityCls),
    ("Taiwan_focal_mechanism", PyObj.taiwanFocalMechanismCls),
    ("Taiwan20092010", PyObj.taiwan20092010Cls)], none⟩

/-- Modelled from the spec: the `utils` module is not in the provided
sources and its exports are left unspecified ("whatever symbols it
intends to make wildcard-visible", section 6); it is modelled with two
placeholder helper symbols and no `__all__`. -/
def utils_module : PyModule :=
  ⟨[("helper_a", PyObj.utilsObj "helper_a"),
    ("helper_b", PyObj.utilsObj "helper_b")], none⟩

/-- The environment in which `__init__.py` runs: all three sibling
modules load and export what section 6 lists. -/
def yews_env : ModuleEnv :=
  [("base", base_module),
   ("packaged_datasets", packaged_datasets_module),
   ("utils", utils_module)]

/-- The module body of `src/yews/datasets/__init__.py`, lines 1 to 14,
statement by statement. -/
def datasets_stmts : List Stmt :=
  [Stmt.importFrom "base" "BaseDataset",
   Stmt.importFrom "base" "Dataset",
   Stmt.importFrom "base" "DirDataset",
   Stmt.importFrom "base" "FileDataset",
   Stmt.importFrom "base" "is_dataset",
   Stmt.importFrom "base" "PathDataset",
   Stmt.importFrom "packaged_datasets" "Mariana",
   Stmt.importFrom "packaged_datasets" "PackagedDataset",
   Stmt.importFrom "packaged_datasets" "SCSN",
   Stmt.importFrom "packaged_datasets" "Wenchuan",
   Stmt.importFrom "packaged_datasets" "SCSN_polarity",
   Stmt.importFrom "packaged_datasets" "Taiwan_focal_mechanism",
   Stmt.importFrom "packaged_datasets" "Taiwan20092010",
   Stmt.importStar "utils"]

/-- The `__all__` literal of `__init__.py`, lines 16 to 29.  Lines 27
and 28 of the source hold two adjacent string literals with no comma
between them; Python concatenates adjacent string literals, which the
`++` below embeds, so the list has eleven elements. -/
def datasets_all : List String :=
  ["BaseDataset",
   "PathDataset",
   "FileDataset",
   "DirDataset",
   "Dataset",
   "PackagedDataset",
   "Wenchuan",
   "Mariana",
   "SCSN",
   "SCSN_polarity",
   "Taiwan_focal_mechanism" ++ "Taiwan20092010"]

/-- The namespace of the `datasets` package after its body has run. -/
def datasets_ns : PyDict :=
  (runStmts yews_env datasets_stmts []).toOption.getD []

/-- Result of a consumer running a wildcard import of the `datasets`
package: the bindings made in the importing scope, and the error on
which the wildcard import stopped, if any. -/
def datasets_star : List (String × PyObj) × Option String :=
  wildcardImport datasets_ns datasets_all

/-- The names a wildcard import of the `datasets` package binds in the
importing scope. -/
def datasets_star_names : List String :=
  datasets_star.1.map Prod.fst

/-- Modelled from the spec: the corrected allow-list of the example
scenario in section 8, with the missing comma restored, so that
`Taiwan_focal_mechanism` and `Taiwan20092010` are separate entries. -/
def datasets_all_fixed : List String :=
  ["BaseDataset",
   "PathDataset",
   "FileDataset",
   "DirDataset",
   "Dataset",
   "PackagedDataset",
   "Wenchuan",
   "Mariana",
   "SCSN",
   "SCSN_polarity",
   "Taiwan_focal_mechanism",
   "Taiwan20092010"]

/-- Wildcard import of the `datasets` package under the corrected
allow-list. -/
def datasets_star_fixed : List (String × PyObj) × Option String :=
  wildcardImport datasets_ns datasets_all_fixed

/-- The object a name denotes in the sibling module that defines it
(the three modules export pairwise distinct names). -/
def moduleExportsOf (n : String) : Option PyObj :=
  (base_module.attrs.lookup n).orElse fun _ =>
    (packaged_datasets_module.attrs.lookup n).orElse fun _ =>
      utils_module.attrs.lookup n

/-- Modelled from the spec: the process-wide module cache (sys.modules)
of the host runtime, sections 5 and 8: a first import runs the module
body once and caches the resulting namespace; a later import returns
the cached namespace object unchanged and does not re-run the body.
The returned Bool records whether the body ran. -/
def importDatasetsOnce : Option PyDict → Except String (PyDict × Bool)
  | some cached => Except.ok (cached, false)
  | none =>
    match runStmts yews_env datasets_stmts [] with
    | Except.ok d => Except.ok (d, true)
    | Except.error e => Except.error e

/-- Modelled from the spec: the error scenario of section 8 in which the
collaborator module `packaged_datasets` is replaced by one from which
`SCSN` has been removed. -/
def packaged_datasets_missing_SCSN : PyModule :=
  ⟨[("Mariana", PyObj.marianaCls),
    ("PackagedDataset", PyObj.packagedDatasetCls),
    ("Wenchuan", PyObj.wenchuanCls),
    ("SCSN_polarity", PyObj.scsnPolarityCls),
    ("Taiwan_focal_mechanism", PyObj.taiwanFocalMechanismCls),
    ("Taiwan20092010", PyObj.taiwan20092010Cls)], none⟩

/-- The environment of that scenario. -/
def env_missing_SCSN : ModuleEnv :=
  [("base", base_module),
   ("packaged_datasets", packaged_datasets_missing_SCSN),
   ("utils", utils_module)]

/-- A module body that reaches an ok result resolved every one of its
statements: each named import found its module and symbol, and each
wildcard import found its module. -/
lemma runStmts_ok_resolves (env : ModuleEnv) :
    ∀ (stmts : List Stmt) (ns r : PyDict), runStmts env stmts ns = Except.ok r →
      ∀ st ∈ stmts, stmtResolves env st = true := by
  intro stmts
  induction stmts with
  | nil =>
    intro ns r _ st hst
    simp at hst
  | cons head rest ih =>
    intro ns r hrun st hst
    cases head with
    | importFrom m s =>
      cases hres : resolveAttr env m s with
      | none => simp [runStmts, hres] at hrun
      | some v =>
        have hrun' : runStmts env rest ((s, v) :: ns) = Except.ok r := by
          simpa [runStmts, hres] using hrun
        rcases List.mem_cons.mp hst with heq | hmem
        · subst heq
          simp [stmtResolves, hres]
        · exact ih ((s, v) :: ns) r hrun' st hmem
    | importStar m =>
      cases hlook : List.lookup m env with
      | none => simp [runStmts, hlook] at hrun
      | some md =>
        cases hbind : bindStarFrom md (starNames md) ns with
        | error e => simp [runStmts, hlook, hbind] at hrun
        | ok ns2 =>
          have hrun' : runStmts env rest ns2 = Except.ok r := by
            simpa [runStmts, hlook, hbind] using hrun
          rcases List.mem_cons.mp hst with heq | hmem
          · subst heq
            simp [stmtResolves, hlook]
          · exact ih ns2 r hrun' st hmem

/-- Claim C1: in the allow-list assigned to `__all__`, the two adjacent
entries on lines 27 and 28 carry no separating comma, so `__all__`
holds the single concatenated string
"Taiwan_focal_mechanismTaiwan20092010" instead of two separate entries,
giving eleven entries in total rather than twelve. -/
theorem allowlist_has_concatenated_entry :
    datasets_all.length = 11 ∧
    datasets_all[10]? = some "Taiwan_focal_mechanismTaiwan20092010" ∧
    "Taiwan_focal_mechanism" ∉ datasets_all ∧
    "Taiwan20092010" ∉ datasets_all := by
  decide

/-- Claim C2: the claim states that every name in `__all__` resolves to
a non-null attribute of the initialized package; the concatenated entry
produced by the missing comma is in `__all__` yet getattr on the
package finds nothing under it, so the code falls short of its stated
intent at exactly that entry. -/
theorem allowlist_entry_lookup_fails :
    "Taiwan_focal_mechanismTaiwan20092010" ∈ datasets_all ∧
    getattr datasets_ns "Taiwan_focal_mechanismTaiwan20092010" = none ∧
    ((datasets_all.take 10).all fun n => (getattr datasets_ns n).isSome) = true := by
  decide

/-- Claim C3: a wildcard import of the package binds neither
"Taiwan_focal_mechanism" nor "Taiwan20092010" (the concatenated
allow-list string matches no attribute), while direct attribute access
on the package finds both, each bound to the object the
`packaged_datasets` module exports; only wildcard-import visibility is
affected. -/
theorem wildcard_hides_taiwan_names :
    "Taiwan_focal_mechanism" ∉ datasets_star_names ∧
    "Taiwan20092010" ∉ datasets_star_names ∧
    getattr datasets_ns "Taiwan_focal_mechanism" = some PyObj.taiwanFocalMechanismCls ∧
    getattr datasets_ns "Taiwan20092010" = some PyObj.taiwan20092010Cls := by
  decide

/-- Counterexample to claim C4 as stated: the concatenated entry of
`__all__` resolves to no exported symbol, yet package initialization
succeeds (the body runs to an ok namespace), so the mismatch is not a
failure at package load time. -/
theorem allowlist_mismatch_not_load_failure :
    "Taiwan_focal_mechanismTaiwan20092010" ∈ datasets_all ∧
    getattr datasets_ns "Taiwan_focal_mechanismTaiwan20092010" = none ∧
    (runStmts yews_env datasets_stmts []).toOption = some datasets_ns :=
  ⟨by decide, by decide, rfl⟩

/-- Claim C4 (amended): the first ten allow-list entries each resolve to
an attribute of the package, the concatenated eleventh does not, and
that mismatch does not fail at package load time: initialization
succeeds, and the mismatch surfaces as an error at wildcard-import
time, not as a silent omission. -/
theorem allowlist_mismatch_surfaces_at_wildcard :
    (runStmts yews_env datasets_stmts []).toOption = some datasets_ns ∧
    ((datasets_all.take 10).all fun n => (getattr datasets_ns n).isSome) = true ∧
    getattr datasets_ns "Taiwan_focal_mechanismTaiwan20092010" = none ∧
    datasets_star.2 = some "Taiwan_focal_mechanismTaiwan20092010" :=
  ⟨rfl, by decide, by decide, by decide⟩

/-- Claim C5: in any environment in which some statement of the module
body does not resolve, because a referenced module fails to load or a
named symbol is missing from its source module, running the body of
`__init__.py` produces an error and no namespace: package
initialization fails entirely and the failure surfaces to the
importer. -/
theorem missing_symbol_aborts_init (env : ModuleEnv) (st : Stmt)
    (hmem : st ∈ datasets_stmts) (hfail : stmtResolves env st = false) :
    ∃ e, runStmts env datasets_stmts [] = Except.error e := by
  cases hrun : runStmts env datasets_stmts [] with
  | error e => exact ⟨e, rfl⟩
  | ok r =>
    have htrue := runStmts_ok_resolves env datasets_stmts [] r hrun st hmem
    rw [htrue] at hfail
    simp at hfail

/-- Witness for claim C5: with `SCSN` removed from `packaged_datasets`,
the statement importing it is part of the body and does not resolve,
and initialization errors out. -/
theorem missing_symbol_aborts_init_witness :
    (Stmt.importFrom "packaged_datasets" "SCSN" ∈ datasets_stmts) ∧
    stmtResolves env_missing_SCSN (Stmt.importFrom "packaged_datasets" "SCSN") = false ∧
    (∃ e, runStmts env_missing_SCSN datasets_stmts [] = Except.error e) :=
  ⟨by decide, by decide,
    missing_symbol_aborts_init env_missing_SCSN
      (Stmt.importFrom "packaged_datasets" "SCSN") (by decide) (by decide)⟩

/-- Counterexample to claim C6 as stated: the concatenated string is an
entry of `__all__`, yet a wildcard import of the package never binds
it, so not every name of the allow-list is bound. -/
theorem concatenated_entry_unbound :
    "Taiwan_focal_mechanismTaiwan20092010" ∈ datasets_all ∧
    "Taiwan_focal_mechanismTaiwan20092010" ∉ datasets_star_names := by
  decide

/-- Claim C6 (amended): a wildcard import of the package binds no name
outside `__all__`, and binds every name of `__all__` except the
concatenated entry, in list order, at which entry it stops with an
error. -/
theorem wildcard_binds_allowlist_upto_defect :
    datasets_star_names =
      datasets_all.filter (fun n => n != "Taiwan_focal_mechanismTaiwan20092010") ∧
    datasets_star.2 = some "Taiwan_focal_mechanismTaiwan20092010" := by
  decide

/-- Counterexample to claim C7 as stated: under the corrected
allow-list a wildcard import of the package binds twelve names, not
fourteen; the utils helper is wildcard-visible from `utils` itself yet
is not bound, because no utils name appears in `__all__`. -/
theorem corrected_wildcard_not_fourteen :
    datasets_star_fixed.1.length = 12 ∧
    ¬ datasets_star_fixed.1.length = 14 ∧
    "helper_a" ∈ starNames utils_module ∧
    "helper_a" ∉ datasets_star_fixed.1.map Prod.fst := by
  decide

/-- Claim C7 (amended): with the corrected allow-list, a wildcard import
of the package succeeds and binds exactly the twelve listed names, in
order, each bound to the very object its source module exports; utils
wildcard exports are not re-exported, since no utils name appears in
the allow-list. -/
theorem corrected_wildcard_binds_twelve :
    datasets_star_fixed.2 = none ∧
    datasets_star_fixed.1.map Prod.fst = datasets_all_fixed ∧
    (datasets_star_fixed.1.all fun p => moduleExportsOf p.1 == some p.2) = true ∧
    ("helper_a" ∉ datasets_star_fixed.1.map Prod.fst ∧
      "helper_b" ∉ datasets_star_fixed.1.map Prod.fst) := by
  decide

/-- Claim C8: a first import of the package runs the body and caches the
resulting namespace; a second import in the same process returns the
same namespace value from the cache with the body not re-run (the
returned flag is false), and the namespace value itself is immutable in
this model, so re-initialization never alters it. -/
theorem reimport_returns_cached_namespace :
    importDatasetsOnce none = Except.ok (datasets_ns, true) ∧
    importDatasetsOnce (some datasets_ns) = Except.ok (datasets_ns, false) :=
  ⟨rfl, rfl⟩

/-- Claim C9: `is_dataset` is bound into the package namespace by line 5
of the body, so direct attribute access on the package finds it, but it
appears nowhere in `__all__`, so a wildcard import of the package never
binds it. -/
theorem is_dataset_not_wildcard_visible :
    getattr datasets_ns "is_dataset" = some PyObj.isDatasetFn ∧
    "is_dataset" ∉ datasets_all ∧
    "is_dataset" ∉ datasets_star_names := by
  decide

/-- Claim C10: every symbol the wildcard import of line 14 takes from
`utils` is reachable by direct attribute access on the package, yet no
utils name appears in `__all__`, so none of them is re-exported by a
wildcard import of the package itself. -/
theorem utils_symbols_not_reexported :
    starNames utils_module = ["helper_a", "helper_b"] ∧
    ((starNames utils_module).all fun n =>
      (getattr datasets_ns n).isSome &&
      !(datasets_all.contains n) &&
      !(datasets_star_names.contains n)) = true := by
  decide
